import Mathlib

/-!
Verification development for the Intel HDA controller driver core
(`src/system/dev/audio/intel-hda/controller/intel-hda-controller.cpp`).

The stream-context pool, the tag bitmaps, the client request dispatch and
the lifecycle state machine are shallowly embedded below.  Pure helper
functions of the C++ file are translated to Lean functions; the mutable
controller state becomes explicit state passing.  Machine integers are
modelled as `Nat` with explicit 16-bit masking where the source casts to
`uint16_t`.
-/

namespace IntelHDA

/-- Status code `ZX_OK` of the zircon status type. -/
def ZX_OK : Int := 0

/-- Status code `ZX_ERR_INVALID_ARGS` of the zircon status type. -/
def ZX_ERR_INVALID_ARGS : Int := -10

/-- Stream context type, `IntelHDAStream::Type` (INVALID/INPUT/OUTPUT/BIDIR). -/
inductive StreamType
  | INVALID
  | INPUT
  | OUTPUT
  | BIDIR
deriving DecidableEq, Repr

/-- Modelled from the spec: the declaration of `IntelHDAStream` is not under
`src/` (only its callers are).  Per the spec, a stream context carries a
directional identity fixed at creation (`type`, returned by `type()`), a
configured type and an assigned tag (`Configure(type, tag)` sets the latter
two), and a tree-node key (`id`) used for free-pool membership. -/
structure StreamCtx where
  id : Nat
  type : StreamType
  configured_type : StreamType
  tag : Nat
deriving DecidableEq, Repr

/-- Modelled from the spec: `IntelHDAStream::Configure(type, tag)` records the
configured type and the assigned tag on the context; the creation-time
directional identity `type` is not reassigned by allocation/return cycling. -/
def Configure (s : StreamCtx) (t : StreamType) (stream_tag : Nat) : StreamCtx :=
  { s with configured_type := t, tag := stream_tag }

/-- Modelled from the spec: the free pools are `IntelHDAStream::Tree`
(an ordered set keyed by the context's id, declared outside `src/`);
`insert` keeps the key order and `pop_front` removes the least element.
We embed such a tree as a list sorted by ascending `id`. -/
def treeInsert (c : StreamCtx) : List StreamCtx → List StreamCtx
  | [] => [c]
  | x :: xs => if c.id < x.id then c :: x :: xs else x :: treeInsert c xs

/-- Stream-pool portion of the controller state: the three free lists and the
two per-direction free-tag bitmaps (`uint16_t` masks, kept below 2^16). -/
structure PoolState where
  free_input_streams : List StreamCtx
  free_output_streams : List StreamCtx
  free_bidir_streams : List StreamCtx
  free_input_tags : Nat
  free_output_tags : Nat
deriving DecidableEq, Repr

/-- All-ones 16-bit mask, the value of `static_cast<uint16_t>(~0)`. -/
def mask16 : Nat := 65535

/-- Loop body of `AllocateStreamTagLocked`: scan bits `ret, ret+1, ...` of the
tag pool while `ret < 16` (the bound `sizeof(tag_pool) << 3`), returning the
first bit position found set, or 0 when the scan runs out.  The `fuel`
argument makes the recursion structural; `fuel = 16` suffices for the start
index 1 used by the source. -/
def allocTagScanAux (tag_pool : Nat) : Nat → Nat → Nat
  | 0, _ => 0
  | fuel + 1, ret =>
    if ret < 16 then
      if tag_pool.testBit ret then ret
      else allocTagScanAux tag_pool fuel (ret + 1)
    else 0

/-- Scan of `AllocateStreamTagLocked` starting from bit 1, as in the source. -/
def allocTagScan (tag_pool : Nat) : Nat := allocTagScanAux tag_pool 16 1

/-- Clear bit `ret` of a 16-bit pool: `static_cast<uint16_t>(tag_pool & ~(1u << ret))`. -/
def clearTagBit (tag_pool ret : Nat) : Nat := tag_pool &&& (mask16 ^^^ (1 <<< ret))

/-- Set bit `tag` of a 16-bit pool: `static_cast<uint16_t>(tag_pool | (1u << tag))`. -/
def setTagBit (tag_pool tag : Nat) : Nat := (tag_pool ||| (1 <<< tag)) &&& mask16

/-- Tag pool of the requested direction, the reference bound by
`uint16_t& tag_pool = input ? free_input_tags_ : free_output_tags_`. -/
def tagPoolOf (input : Bool) (st : PoolState) : Nat :=
  if input then st.free_input_tags else st.free_output_tags

/-- `IntelHDAController::AllocateStreamTagLocked(bool input)`: pick the tag
pool of the requested direction, scan bits 1..15 for a set bit; on a hit,
clear that bit and return the bit index; otherwise return 0 with the pool
untouched.  The pair returned is (tag, updated pool state). -/
def AllocateStreamTagLocked (input : Bool) (st : PoolState) : Nat × PoolState :=
  let ret := allocTagScan (tagPoolOf input st)
  if ret = 0 then (0, st)
  else
    if input then (ret, { st with free_input_tags := clearTagBit (tagPoolOf input st) ret })
    else (ret, { st with free_output_tags := clearTagBit (tagPoolOf input st) ret })

/-- `IntelHDAController::ReleaseStreamTagLocked(bool input, uint8_t tag)`:
set bit `tag` in the tag pool of the requested direction. -/
def ReleaseStreamTagLocked (input : Bool) (tag : Nat) (st : PoolState) : PoolState :=
  if input then { st with free_input_tags := setTagBit (tagPoolOf input st) tag }
  else { st with free_output_tags := setTagBit (tagPoolOf input st) tag }

/-- Assertion of `ReleaseStreamTagLocked`: the tag is in 1..15 and its bit is
currently clear in the selected pool. -/
def ReleaseStreamTagAssert (input : Bool) (tag : Nat) (st : PoolState) : Prop :=
  0 < tag ∧ tag ≤ 15 ∧ (tagPoolOf input st).testBit tag = false

/-- Free list matching the requested direction, the initial value of the
`src` pointer in `AllocateStream`. -/
def allocSrcMain (t : StreamType) (st : PoolState) : List StreamCtx :=
  if t = StreamType.INPUT then st.free_input_streams else st.free_output_streams

/-- Whether `AllocateStream` falls back to the bidirectional free list:
exactly when the direction's own free list is empty. -/
def allocUseBidir (t : StreamType) (st : PoolState) : Bool :=
  (allocSrcMain t st).isEmpty

/-- Final value of the `src` pointer in `AllocateStream`: the matching free
list, or the bidirectional free list when the former is empty. -/
def allocSrc (t : StreamType) (st : PoolState) : List StreamCtx :=
  if allocUseBidir t st then st.free_bidir_streams else allocSrcMain t st

/-- `IntelHDAController::AllocateStream(type)` for a directional request
(the `INPUT` and `OUTPUT` arms of the switch): select the matching free
list `src`; if it is empty fall back to the bidirectional free list; if that
is also empty return no stream.  Then allocate a tag for the requested
direction; a zero tag fails the allocation.  On success pop the front
context off `src`, configure it with `(type, stream_tag)` and hand it out. -/
def AllocateStreamDir (t : StreamType) (st : PoolState) : Option StreamCtx × PoolState :=
  match allocSrc t st with
  | [] => (none, st)
  | ret :: rest =>
    let alloc := AllocateStreamTagLocked (decide (t = StreamType.INPUT)) st
    if alloc.1 = 0 then (none, alloc.2)
    else
      let st2 :=
        if allocUseBidir t st then { alloc.2 with free_bidir_streams := rest }
        else if t = StreamType.INPUT then { alloc.2 with free_input_streams := rest }
        else { alloc.2 with free_output_streams := rest }
      (some (Configure ret t alloc.1), st2)

/-- `IntelHDAController::AllocateStream(type)`: directional requests go
through the free-list/tag logic; any other type hits the
`ZX_DEBUG_ASSERT(false)` arm and returns no stream. -/
def AllocateStream (t : StreamType) (st : PoolState) : Option StreamCtx × PoolState :=
  match t with
  | StreamType.INPUT => AllocateStreamDir StreamType.INPUT st
  | StreamType.OUTPUT => AllocateStreamDir StreamType.OUTPUT st
  | _ => (none, st)

/-- `IntelHDAController::ReturnStreamLocked(ptr)`: choose the destination
free list from the context's creation-time `type()`, reset the context with
`Configure(INVALID, 0)` and insert it into that list.  The `INVALID` arm is
the `ZX_DEBUG_ASSERT(false)` default, returning with the state untouched.
Note that the source releases no tag bit here. -/
def ReturnStreamLocked (ptr : StreamCtx) (st : PoolState) : PoolState :=
  match ptr.type with
  | StreamType.INPUT =>
      { st with free_input_streams := treeInsert (Configure ptr StreamType.INVALID 0) st.free_input_streams }
  | StreamType.OUTPUT =>
      { st with free_output_streams := treeInsert (Configure ptr StreamType.INVALID 0) st.free_output_streams }
  | StreamType.BIDIR =>
      { st with free_bidir_streams := treeInsert (Configure ptr StreamType.INVALID 0) st.free_bidir_streams }
  | StreamType.INVALID => st

/-- `IntelHDAController::ReturnStream(ptr)`: take the pool lock and delegate
to `ReturnStreamLocked`; the lock disappears in this sequential embedding. -/
def ReturnStream (ptr : StreamCtx) (st : PoolState) : PoolState :=
  ReturnStreamLocked ptr st

/-- Fresh pre-allocated stream context: configured type `INVALID`, tag 0. -/
def mkStream (i : Nat) (t : StreamType) : StreamCtx :=
  { id := i, type := t, configured_type := StreamType.INVALID, tag := 0 }

/-- Modelled from the spec: the controller's `Init` (not under `src/`)
pre-populates the pools with hardware-described counts of input, output and
bidirectional engines, and the free-tag masks start with tags 1..15 free
(bit 0 reserved, the mask value 0xFFFE). -/
def initPool (nin nout nbid : Nat) : PoolState :=
  { free_input_streams := (List.range nin).map (fun i => mkStream i StreamType.INPUT)
    free_output_streams := (List.range nout).map (fun i => mkStream (nin + i) StreamType.OUTPUT)
    free_bidir_streams := (List.range nbid).map (fun i => mkStream (nin + nout + i) StreamType.BIDIR)
    free_input_tags := 65534
    free_output_tags := 65534 }

/-- Example bidirectional context, last configured as INPUT with tag 3. -/
def exBidirCtx : StreamCtx :=
  { id := 5, type := StreamType.BIDIR, configured_type := StreamType.INPUT, tag := 3 }

/-- Example pool with a free bidirectional context but no free tag bits. -/
def exTagExhaustedPool : PoolState :=
  { free_input_streams := [], free_output_streams := [],
    free_bidir_streams := [mkStream 0 StreamType.BIDIR],
    free_input_tags := 1, free_output_tags := 1 }

/-- Example pool whose only free context is bidirectional, all tags free. -/
def exBidirOnlyPool : PoolState :=
  { free_input_streams := [], free_output_streams := [],
    free_bidir_streams := [mkStream 7 StreamType.BIDIR],
    free_input_tags := 65534, free_output_tags := 65534 }

/-- Combined pool-plus-client view used to state multi-step pool properties:
`outstanding` holds the contexts currently checked out to clients. -/
structure SysState where
  pool : PoolState
  outstanding : List StreamCtx
deriving DecidableEq, Repr

/-- One externally visible pool operation: an `AllocateStream(t)` call, or a
`ReturnStream` call handing back the `i`-th outstanding context. -/
inductive PoolOp
  | alloc (t : StreamType)
  | ret (i : Nat)
deriving DecidableEq, Repr

/-- Effect of one pool operation on the combined state. -/
def stepOp (s : SysState) : PoolOp → SysState
  | PoolOp.alloc t =>
    let r := AllocateStream t s.pool
    match r.1 with
    | some c => { pool := r.2, outstanding := c :: s.outstanding }
    | none => { pool := r.2, outstanding := s.outstanding }
  | PoolOp.ret i =>
    match s.outstanding.get? i with
    | some c => { pool := ReturnStream c s.pool, outstanding := s.outstanding.eraseIdx i }
    | none => s

/-- Run a sequence of pool operations. -/
def runOps (s : SysState) : List PoolOp → SysState
  | [] => s
  | op :: ops => runOps (stepOp s op) ops

/-- Number of free-tag bits cleared in a direction's mask, relative to the
initial mask in which tags 1..15 are all free. -/
def clearedTagCount (tag_pool : Nat) : Nat :=
  (List.range 16).countP (fun b => decide (1 ≤ b) && !tag_pool.testBit b)

/-- Number of outstanding contexts configured for the given direction. -/
def outstandingInDir (outstanding : List StreamCtx) (input : Bool) : Nat :=
  outstanding.countP
    (fun c => c.configured_type == (if input then StreamType.INPUT else StreamType.OUTPUT))

/-- Header of every client request, modelled from the spec wire contract
(`{command_id: u32}`); the declaration `ihda_cmd_hdr_t` is not under `src/`. -/
structure IhdaCmdHdr where
  cmd : Nat
deriving DecidableEq, Repr

/-- Modelled from the spec: size in bytes of `ihda_cmd_hdr_t` (one u32). -/
def SIZEOF_IHDA_CMD_HDR : Nat := 4

/-- Modelled from the spec: `GET_IDS` requests are header-only. -/
def SIZEOF_GET_IDS_REQ : Nat := 4

/-- Modelled from the spec: `SNAPSHOT_REGS` requests are header-only. -/
def SIZEOF_SNAPSHOT_REGS_REQ : Nat := 4

/-- Modelled from the spec: the `GET_IDS` command identifier (the concrete
value lives in a protocol header outside `src/`; only distinctness from the
other identifier matters). -/
def IHDA_CMD_GET_IDS : Nat := 4096

/-- Modelled from the spec: the `SNAPSHOT_REGS` command identifier. -/
def IHDA_CONTROLLER_CMD_SNAPSHOT_REGS : Nat := 8192

/-- Controller-side identification data read when serving `GET_IDS`:
`pci_dev_info_.vendor_id`, `pci_dev_info_.device_id` and the live register
reads `REG_RD(&regs_->vmaj)`, `REG_RD(&regs_->vmin)`. -/
structure CtrlIds where
  vendor_id : Nat
  device_id : Nat
  vmaj : Nat
  vmin : Nat
deriving DecidableEq, Repr

/-- Reply record `ihda_get_ids_resp_t` as filled in by the source. -/
structure IhdaGetIdsResp where
  hdr : IhdaCmdHdr
  vid : Nat
  did : Nat
  ihda_vmaj : Nat
  ihda_vmin : Nat
  rev_id : Nat
  step_id : Nat
deriving DecidableEq, Repr

/-- One reply written back on the client channel.  The `SNAPSHOT_REGS` body
is served by `SnapshotRegs`, which is not under `src/`; modelled from the
spec as a single reply carrying the echoed header. -/
inductive ClientReply
  | getIds (resp : IhdaGetIdsResp)
  | snapshotRegs (hdr : IhdaCmdHdr)
deriving DecidableEq, Repr

/-- Expected fixed request size for a decoded command identifier, `none` for
an unknown command. -/
def expectedReqSize (cmd : Nat) : Option Nat :=
  if cmd = IHDA_CMD_GET_IDS then some SIZEOF_GET_IDS_REQ
  else if cmd = IHDA_CONTROLLER_CMD_SNAPSHOT_REGS then some SIZEOF_SNAPSHOT_REGS_REQ
  else none

/-- `IntelHDAController::ProcessClientRequest` after a successful channel
read of `req_size` bytes whose header decodes to `req`: reject a request
shorter than the header, then dispatch on the command, rejecting a size
mismatch against the command's fixed request size and rejecting unknown
commands; an accepted `GET_IDS` writes one reply echoing the header and
carrying the vendor/device ids and the live version registers, with
`rev_id` and `step_id` zero.  The result pairs the returned status with the
list of replies written on the channel. -/
def ProcessClientRequest (ctrl : CtrlIds) (req : IhdaCmdHdr) (req_size : Nat) :
    Int × List ClientReply :=
  if req_size < SIZEOF_IHDA_CMD_HDR then
    (ZX_ERR_INVALID_ARGS, [])
  else if req.cmd = IHDA_CMD_GET_IDS then
    if req_size ≠ SIZEOF_GET_IDS_REQ then (ZX_ERR_INVALID_ARGS, [])
    else
      (ZX_OK,
       [ClientReply.getIds
          { hdr := req, vid := ctrl.vendor_id, did := ctrl.device_id,
            ihda_vmaj := ctrl.vmaj, ihda_vmin := ctrl.vmin,
            rev_id := 0, step_id := 0 }])
  else if req.cmd = IHDA_CONTROLLER_CMD_SNAPSHOT_REGS then
    if req_size ≠ SIZEOF_SNAPSHOT_REGS_REQ then (ZX_ERR_INVALID_ARGS, [])
    else (ZX_OK, [ClientReply.snapshotRegs req])
  else (ZX_ERR_INVALID_ARGS, [])

/-- Example controller identification values. -/
def exCtrlIds : CtrlIds := { vendor_id := 32902, device_id := 10272, vmaj := 1, vmin := 0 }

/-- Example header decoding to the `GET_IDS` command. -/
def exGetIdsHdr : IhdaCmdHdr := { cmd := IHDA_CMD_GET_IDS }

/-- Controller lifecycle states (`IntelHDAController::State`). -/
inductive State
  | STARTING
  | OPERATING
  | SHUTTING_DOWN
  | SHUT_DOWN
deriving DecidableEq, Repr

/-- State installed by the constructor `IntelHDAController()`. -/
def ctorState : State := State.STARTING

/-- Condition asserted by `~IntelHDAController()`:
`GetState() == State::STARTING || GetState() == State::SHUT_DOWN`. -/
def destructorStateAssert (s : State) : Bool :=
  s == State.STARTING || s == State.SHUT_DOWN

/-- Modelled from the spec: the one-directional lifecycle transition chain
STARTING → OPERATING → SHUTTING_DOWN → SHUT_DOWN; the writers of the
OPERATING and SHUT_DOWN transitions (Init and the IRQ thread body) are not
under `src/`. -/
def stateStep : State → State → Bool
  | State.STARTING, State.OPERATING => true
  | State.OPERATING, State.SHUTTING_DOWN => true
  | State.SHUTTING_DOWN, State.SHUT_DOWN => true
  | _, _ => false

/-- Modelled from the spec: the IRQ thread sets the state to SHUT_DOWN as
its last act before exiting, so this is the state a joiner observes. -/
def irqThreadFinalState : State := State.SHUT_DOWN

/-- Controller lifecycle fields touched by shutdown. -/
structure LifecycleState where
  state : State
  irq_thread_started : Bool
  channels_active : Bool
deriving DecidableEq, Repr

/-- Observable shutdown actions, in program order. -/
inductive ShutdownEvent
  | deactivateChannels
  | setStateEv (s : State)
  | wakeIRQThread
  | joinIRQThread
deriving DecidableEq, Repr

/-- Example lifecycle state of an operating controller. -/
def exOperating : LifecycleState :=
  { state := State.OPERATING, irq_thread_started := true, channels_active := true }

/-- `IntelHDAController::ShutdownIRQThread()`: when the IRQ thread was
started, set the state to SHUTTING_DOWN, wake the thread, join it (after
which the state observed is the thread's final state) and clear
`irq_thread_started_`; otherwise do nothing. -/
def ShutdownIRQThread (c : LifecycleState) : LifecycleState × List ShutdownEvent :=
  if c.irq_thread_started then
    ({ c with state := irqThreadFinalState, irq_thread_started := false },
     [ShutdownEvent.setStateEv State.SHUTTING_DOWN,
      ShutdownEvent.wakeIRQThread, ShutdownEvent.joinIRQThread])
  else (c, [])

/-- `IntelHDAController::DeviceShutdown()`: deactivate the default dispatch
domain (closing every client channel and synchronizing with in-flight
dispatch callbacks) and only then shut the IRQ thread down. -/
def DeviceShutdown (c : LifecycleState) : LifecycleState × List ShutdownEvent :=
  let c1 := { c with channels_active := false }
  let r := ShutdownIRQThread c1
  (r.1, ShutdownEvent.deactivateChannels :: r.2)

/-- `IntelHDAController::DriverBind(ctx, device, cookie)`, parametrized by
the status `Init(device)` would return (the body of `Init` is not under
`src/`).  The first input states whether the `cookie` out-pointer is null.
The result records the returned status, whether a controller was
constructed, and whether the leaked controller reference was written into
the cookie. -/
def DriverBind (cookie_is_null : Bool) (init_status : Int) : Int × Bool × Bool :=
  if cookie_is_null then (ZX_ERR_INVALID_ARGS, false, false)
  else (init_status, true, init_status == ZX_OK)

/-! ### Helper lemmas about the tag-bit scan and the 16-bit masks -/

lemma allocTagScanAux_spec (pool : Nat) :
    ∀ fuel ret, allocTagScanAux pool fuel ret ≠ 0 →
      ret ≤ allocTagScanAux pool fuel ret ∧ allocTagScanAux pool fuel ret < 16 ∧
      pool.testBit (allocTagScanAux pool fuel ret) = true ∧
      ∀ j, ret ≤ j → j < allocTagScanAux pool fuel ret → pool.testBit j = false := by
  intro fuel
  induction fuel with
  | zero => intro ret h; simp [allocTagScanAux] at h
  | succ fuel ih =>
    intro ret h
    unfold allocTagScanAux at h ⊢
    by_cases hlt : ret < 16
    · by_cases hbit : pool.testBit ret = true
      · rw [if_pos hlt, if_pos hbit] at h ⊢
        exact ⟨Nat.le_refl _, hlt, hbit, fun j hj1 hj2 => absurd hj1 (Nat.not_le.mpr hj2)⟩
      · rw [if_pos hlt, if_neg hbit] at h ⊢
        obtain ⟨h1, h2, h3, h4⟩ := ih (ret + 1) h
        refine ⟨by omega, h2, h3, ?_⟩
        intro j hj1 hj2
        rcases Nat.eq_or_lt_of_le hj1 with heq | hj
        · subst heq; simpa using hbit
        · exact h4 j (by omega) hj2
    · simp [hlt] at h

lemma allocTagScanAux_eq_zero (pool : Nat) :
    ∀ fuel ret, 1 ≤ ret → 16 ≤ ret + fuel →
      (allocTagScanAux pool fuel ret = 0 ↔
        ∀ j, ret ≤ j → j < 16 → pool.testBit j = false) := by
  intro fuel
  induction fuel with
  | zero =>
    intro ret _ h16
    simp only [allocTagScanAux, true_iff]
    intro j hj1 hj2
    omega
  | succ fuel ih =>
    intro ret h1 h16
    unfold allocTagScanAux
    by_cases hlt : ret < 16
    · by_cases hbit : pool.testBit ret = true
      · rw [if_pos hlt, if_pos hbit]
        constructor
        · intro h0; omega
        · intro hall
          have := hall ret (Nat.le_refl _) hlt
          rw [hbit] at this
          exact absurd this (by simp)
      · rw [if_pos hlt, if_neg hbit]
        rw [ih (ret + 1) (by omega) (by omega)]
        constructor
        · intro hall j hj1 hj2
          rcases Nat.eq_or_lt_of_le hj1 with heq | hj
          · subst heq; simpa using hbit
          · exact hall j (by omega) hj2
        · intro hall j hj1 hj2
          exact hall j (by omega) hj2
    · rw [if_neg hlt]
      simp only [true_iff]
      intro j hj1 hj2
      omega

lemma allocTagScan_eq_zero (pool : Nat) :
    allocTagScan pool = 0 ↔ ∀ j, 1 ≤ j → j < 16 → pool.testBit j = false :=
  allocTagScanAux_eq_zero pool 16 1 (by omega) (by omega)

lemma allocTagScan_spec (pool : Nat) (h : allocTagScan pool ≠ 0) :
    1 ≤ allocTagScan pool ∧ allocTagScan pool < 16 ∧
    pool.testBit (allocTagScan pool) = true ∧
    ∀ j, 1 ≤ j → j < allocTagScan pool → pool.testBit j = false :=
  allocTagScanAux_spec pool 16 1 h

lemma allocTagScan_eq (pool t : Nat) (h1 : 1 ≤ t) (h2 : t < 16)
    (hset : pool.testBit t = true)
    (hmin : ∀ j, 1 ≤ j → j < t → pool.testBit j = false) :
    allocTagScan pool = t := by
  have hne : allocTagScan pool ≠ 0 := by
    intro h0
    have := (allocTagScan_eq_zero pool).mp h0 t h1 h2
    rw [hset] at this
    exact absurd this (by simp)
  obtain ⟨ha, hb, hc, hd⟩ := allocTagScan_spec pool hne
  by_contra hneq
  rcases Nat.lt_or_ge (allocTagScan pool) t with hlt | hge
  · have := hmin _ ha hlt
    rw [hc] at this
    exact absurd this (by simp)
  · have hgt : t < allocTagScan pool := by omega
    have := hd t h1 hgt
    rw [hset] at this
    exact absurd this (by simp)

lemma mask16_eq : mask16 = 2 ^ 16 - 1 := by norm_num [mask16]

lemma testBit_mask16 (j : Nat) : mask16.testBit j = decide (j < 16) := by
  rw [mask16_eq]
  exact Nat.testBit_two_pow_sub_one 16 j

lemma testBit_one_shl (r j : Nat) : ((1 : Nat) <<< r).testBit j = decide (j = r) := by
  have h : (1 : Nat) <<< r = 2 ^ r := by
    rw [Nat.shiftLeft_eq, Nat.one_mul]
  rw [h, Nat.testBit_two_pow]
  by_cases hj : j = r
  · subst hj; simp
  · have hrj : r ≠ j := fun hx => hj hx.symm
    simp [hj, hrj]

lemma testBit_clearTagBit (pool r j : Nat) (hr : r < 16) :
    (clearTagBit pool r).testBit j =
      (pool.testBit j && (decide (j < 16) && !decide (j = r))) := by
  unfold clearTagBit
  rw [Nat.testBit_land, Nat.testBit_xor, testBit_mask16, testBit_one_shl]
  by_cases h1 : j = r
  · subst h1; simp [hr]
  · by_cases h2 : j < 16 <;> simp [h1, h2]

lemma testBit_setTagBit (pool t j : Nat) :
    (setTagBit pool t).testBit j =
      ((pool.testBit j || decide (j = t)) && decide (j < 16)) := by
  unfold setTagBit
  rw [Nat.testBit_land, Nat.testBit_lor, testBit_one_shl, testBit_mask16]

/-! ### Helper lemmas about the tag allocator and the stream allocator -/

lemma allocateStreamTagLocked_fst (input : Bool) (st : PoolState) :
    (AllocateStreamTagLocked input st).1 = allocTagScan (tagPoolOf input st) := by
  unfold AllocateStreamTagLocked
  by_cases hz : allocTagScan (tagPoolOf input st) = 0
  · simp [hz]
  · cases input <;> simp [hz]

lemma allocateStreamTagLocked_zero_state (input : Bool) (st : PoolState)
    (h : (AllocateStreamTagLocked input st).1 = 0) :
    (AllocateStreamTagLocked input st).2 = st := by
  rw [allocateStreamTagLocked_fst] at h
  simp [AllocateStreamTagLocked, h]

lemma allocateStreamTagLocked_pos_pool (input : Bool) (st : PoolState)
    (h : (AllocateStreamTagLocked input st).1 ≠ 0) :
    tagPoolOf input (AllocateStreamTagLocked input st).2 =
      clearTagBit (tagPoolOf input st) (allocTagScan (tagPoolOf input st)) := by
  rw [allocateStreamTagLocked_fst] at h
  cases input <;> simp_all [AllocateStreamTagLocked, tagPoolOf]

lemma allocateStreamDir_src_empty (t : StreamType) (st : PoolState)
    (h : allocSrc t st = []) : AllocateStreamDir t st = (none, st) := by
  unfold AllocateStreamDir
  rw [h]

lemma allocateStreamDir_tag_zero (t : StreamType) (st : PoolState) (c : StreamCtx)
    (rest : List StreamCtx) (hsrc : allocSrc t st = c :: rest)
    (hz : (AllocateStreamTagLocked (decide (t = StreamType.INPUT)) st).1 = 0) :
    AllocateStreamDir t st = (none, st) := by
  unfold AllocateStreamDir
  rw [hsrc]
  simp only [hz, if_true, if_pos rfl]
  rw [allocateStreamTagLocked_zero_state _ _ hz]

lemma allocateStreamDir_success (t : StreamType) (st : PoolState) (c : StreamCtx)
    (rest : List StreamCtx) (hsrc : allocSrc t st = c :: rest)
    (hz : (AllocateStreamTagLocked (decide (t = StreamType.INPUT)) st).1 ≠ 0) :
    (AllocateStreamDir t st).1 =
      some (Configure c t (AllocateStreamTagLocked (decide (t = StreamType.INPUT)) st).1) := by
  unfold AllocateStreamDir
  rw [hsrc]
  simp [hz]

lemma allocateStreamDir_failure (t : StreamType) (st : PoolState)
    (h : (AllocateStreamDir t st).1 = none) : (AllocateStreamDir t st).2 = st := by
  cases hsrc : allocSrc t st with
  | nil => rw [allocateStreamDir_src_empty t st hsrc]
  | cons c rest =>
    by_cases hz : (AllocateStreamTagLocked (decide (t = StreamType.INPUT)) st).1 = 0
    · rw [allocateStreamDir_tag_zero t st c rest hsrc hz]
    · exact absurd h (by rw [allocateStreamDir_success t st c rest hsrc hz]; simp)

lemma allocateStream_eq_dir (t : StreamType) (st : PoolState)
    (h : t = StreamType.INPUT ∨ t = StreamType.OUTPUT) :
    AllocateStream t st = AllocateStreamDir t st := by
  rcases h with h | h <;> subst h <;> rfl

/-! ### Claim theorems -/

/-- C1: a context returned through `ReturnStream` is re-inserted into the
free list matching its creation-time classification — a bidirectional
context opportunistically configured as INPUT or OUTPUT goes back to the
bidirectional free list, not to the list of the direction it was last
configured as — and the re-inserted context has its configured type reset to
INVALID and its tag reset to 0. -/
theorem returnStream_restores_original_pool (ptr : StreamCtx) (st : PoolState) :
    (Configure ptr StreamType.INVALID 0).configured_type = StreamType.INVALID ∧
    (Configure ptr StreamType.INVALID 0).tag = 0 ∧
    (ptr.type = StreamType.BIDIR →
      ReturnStream ptr st =
        { st with free_bidir_streams :=
            treeInsert (Configure ptr StreamType.INVALID 0) st.free_bidir_streams }) ∧
    (ptr.type = StreamType.INPUT →
      ReturnStream ptr st =
        { st with free_input_streams :=
            treeInsert (Configure ptr StreamType.INVALID 0) st.free_input_streams }) ∧
    (ptr.type = StreamType.OUTPUT →
      ReturnStream ptr st =
        { st with free_output_streams :=
            treeInsert (Configure ptr StreamType.INVALID 0) st.free_output_streams }) := by
  refine ⟨rfl, rfl, ?_, ?_, ?_⟩ <;> intro h <;>
    (unfold ReturnStream ReturnStreamLocked; rw [h])

/-- Witness for C1: a bidirectional context last configured as INPUT goes
back to the bidirectional free list. -/
theorem returnStream_restores_original_pool_witness :
    exBidirCtx.type = StreamType.BIDIR ∧
    ReturnStream exBidirCtx (initPool 0 0 0) =
      { initPool 0 0 0 with free_bidir_streams := treeInsert (Configure exBidirCtx StreamType.INVALID 0) (initPool 0 0 0).free_bidir_streams } :=
  ⟨rfl, (returnStream_restores_original_pool exBidirCtx (initPool 0 0 0)).2.2.1 rfl⟩

/-- C2 (failing evaluation): from the initial pool with one input context and
all tags free, `AllocateStream(INPUT)` followed by `ReturnStream` of the
allocated context leaves zero outstanding input allocations while one input
free-tag bit stays cleared (and the context itself is back in its free
list): `ReturnStreamLocked` never calls `ReleaseStreamTagLocked`, so the
bitmap does not track outstanding allocations. -/
theorem returnStream_never_releases_tag_bit :
    outstandingInDir (runOps { pool := initPool 1 0 0, outstanding := [] }
        [PoolOp.alloc StreamType.INPUT, PoolOp.ret 0]).outstanding true = 0 ∧
    clearedTagCount (runOps { pool := initPool 1 0 0, outstanding := [] }
        [PoolOp.alloc StreamType.INPUT, PoolOp.ret 0]).pool.free_input_tags = 1 ∧
    (runOps { pool := initPool 1 0 0, outstanding := [] }
        [PoolOp.alloc StreamType.INPUT, PoolOp.ret 0]).pool.free_input_streams =
      [mkStream 0 StreamType.INPUT] := by
  decide

/-- C3: for a directional request the matching free list is selected, with
fallback to the bidirectional list exactly when it is empty; an empty
fallback fails with no stream; a zero tag scan in the requested direction's
bitmap fails the call even when a context was available; on success the
front context popped off the selected list is handed out configured with the
requested type and the allocated tag.  The embedding is a total function, so
no call can block. -/
theorem allocateStream_selection_and_failure_modes (t : StreamType) (st : PoolState)
    (h : t = StreamType.INPUT ∨ t = StreamType.OUTPUT) :
    (allocSrcMain StreamType.INPUT st = st.free_input_streams) ∧
    (allocSrcMain StreamType.OUTPUT st = st.free_output_streams) ∧
    (allocSrcMain t st = [] → allocSrc t st = st.free_bidir_streams) ∧
    (allocSrcMain t st ≠ [] → allocSrc t st = allocSrcMain t st) ∧
    (allocSrc t st = [] → AllocateStream t st = (none, st)) ∧
    (allocTagScan (tagPoolOf (decide (t = StreamType.INPUT)) st) = 0 →
      (AllocateStream t st).1 = none) ∧
    (∀ c rest, allocSrc t st = c :: rest →
      allocTagScan (tagPoolOf (decide (t = StreamType.INPUT)) st) ≠ 0 →
      (AllocateStream t st).1 =
        some (Configure c t
          (allocTagScan (tagPoolOf (decide (t = StreamType.INPUT)) st)))) := by
  refine ⟨rfl, by simp [allocSrcMain], ?_, ?_, ?_, ?_, ?_⟩
  · intro hm
    simp [allocSrc, allocUseBidir, hm]
  · intro hm
    cases hx : allocSrcMain t st with
    | nil => exact absurd hx hm
    | cons a as => simp [allocSrc, allocUseBidir, hx]
  · intro hs
    rw [allocateStream_eq_dir t st h]
    exact allocateStreamDir_src_empty t st hs
  · intro hz
    rw [allocateStream_eq_dir t st h]
    have hz2 : (AllocateStreamTagLocked (decide (t = StreamType.INPUT)) st).1 = 0 := by
      rw [allocateStreamTagLocked_fst]
      exact hz
    cases hsrc : allocSrc t st with
    | nil => rw [allocateStreamDir_src_empty t st hsrc]
    | cons c rest => rw [allocateStreamDir_tag_zero t st c rest hsrc hz2]
  · intro c rest hsrc hz
    rw [allocateStream_eq_dir t st h]
    have hz2 : (AllocateStreamTagLocked (decide (t = StreamType.INPUT)) st).1 ≠ 0 := by
      rw [allocateStreamTagLocked_fst]
      exact hz
    rw [allocateStreamDir_success t st c rest hsrc hz2, allocateStreamTagLocked_fst]

/-- Witness for C3: an INPUT request served out of the bidirectional
fallback list, configured with the requested type and tag 1. -/
theorem allocateStream_selection_and_failure_modes_witness :
    (AllocateStream StreamType.INPUT exBidirOnlyPool).1 =
      some (Configure (mkStream 7 StreamType.BIDIR) StreamType.INPUT 1) :=
  (allocateStream_selection_and_failure_modes StreamType.INPUT exBidirOnlyPool
      (Or.inl rfl)).2.2.2.2.2.2
    (mkStream 7 StreamType.BIDIR) [] (by decide) (by decide)

/-- C4: the tag allocator returns the lowest set bit among positions 1..15
of the requested direction's 16-bit mask — bit 0 is never returned, with 0
meaning no tag is available — and clears exactly that bit; releasing a tag
sets its bit again, so the very next allocation in that direction can return
it. -/
theorem tag_alloc_lowest_free_and_release (input : Bool) (st : PoolState) :
    ((AllocateStreamTagLocked input st).1 = 0 ↔
      ∀ j, 1 ≤ j → j < 16 → (tagPoolOf input st).testBit j = false) ∧
    ((AllocateStreamTagLocked input st).1 ≠ 0 →
      1 ≤ (AllocateStreamTagLocked input st).1 ∧
      (AllocateStreamTagLocked input st).1 < 16 ∧
      (tagPoolOf input st).testBit (AllocateStreamTagLocked input st).1 = true ∧
      (∀ j, 1 ≤ j → j < (AllocateStreamTagLocked input st).1 →
        (tagPoolOf input st).testBit j = false) ∧
      (tagPoolOf input (AllocateStreamTagLocked input st).2).testBit
        (AllocateStreamTagLocked input st).1 = false ∧
      (∀ j, j < 16 → j ≠ (AllocateStreamTagLocked input st).1 →
        (tagPoolOf input (AllocateStreamTagLocked input st).2).testBit j =
          (tagPoolOf input st).testBit j)) ∧
    (∀ tag, 1 ≤ tag → tag < 16 →
      (tagPoolOf input (ReleaseStreamTagLocked input tag st)).testBit tag = true ∧
      ((∀ j, 1 ≤ j → j < tag → (tagPoolOf input st).testBit j = false) →
        (AllocateStreamTagLocked input (ReleaseStreamTagLocked input tag st)).1 = tag)) := by
  have hfst := allocateStreamTagLocked_fst input st
  refine ⟨?_, ?_, ?_⟩
  · rw [hfst]
    exact allocTagScan_eq_zero _
  · intro hne
    have hpool := allocateStreamTagLocked_pos_pool input st hne
    rw [hfst] at hne ⊢
    obtain ⟨h1, h2, h3, h4⟩ := allocTagScan_spec _ hne
    refine ⟨h1, h2, h3, h4, ?_, ?_⟩
    · rw [hpool, testBit_clearTagBit _ _ _ h2]
      simp
    · intro j hj16 hjne
      rw [hpool, testBit_clearTagBit _ _ _ h2]
      simp [hj16, hjne]
  · intro tag htag1 htag2
    have hrel : tagPoolOf input (ReleaseStreamTagLocked input tag st) =
        setTagBit (tagPoolOf input st) tag := by
      cases input <;> simp [ReleaseStreamTagLocked, tagPoolOf]
    constructor
    · rw [hrel, testBit_setTagBit]
      simp [htag2]
    · intro hmin
      rw [allocateStreamTagLocked_fst, hrel]
      apply allocTagScan_eq _ tag htag1 htag2
      · rw [testBit_setTagBit]
        simp [htag2]
      · intro j hj1 hj2
        have hne2 : j ≠ tag := by omega
        have hj16 : j < 16 := by omega
        rw [testBit_setTagBit]
        simp [hmin j hj1 hj2, hne2, hj16]

/-- Witness for C4: in the input direction with all tags free, releasing tag
1 after nothing lower makes the very next allocation return tag 1. -/
theorem tag_alloc_lowest_free_and_release_witness :
    (AllocateStreamTagLocked true (ReleaseStreamTagLocked true 1 (initPool 0 0 0))).1 = 1 :=
  ((tag_alloc_lowest_free_and_release true (initPool 0 0 0)).2.2 1 (by decide) (by decide)).2
    (fun j hj1 hj2 => absurd hj2 (Nat.not_lt.mpr hj1))

/-- C5: a request shorter than the header is rejected with
`ZX_ERR_INVALID_ARGS`; a request whose size differs from the fixed size
expected for its decoded command is rejected likewise; an unknown command is
rejected likewise; and no reply is written in any of these cases. -/
theorem processClientRequest_rejects_malformed (ctrl : CtrlIds) (req : IhdaCmdHdr)
    (req_size : Nat) :
    (req_size < SIZEOF_IHDA_CMD_HDR →
      ProcessClientRequest ctrl req req_size = (ZX_ERR_INVALID_ARGS, [])) ∧
    (SIZEOF_IHDA_CMD_HDR ≤ req_size →
      ∀ esz, expectedReqSize req.cmd = some esz → req_size ≠ esz →
        ProcessClientRequest ctrl req req_size = (ZX_ERR_INVALID_ARGS, [])) ∧
    (SIZEOF_IHDA_CMD_HDR ≤ req_size → expectedReqSize req.cmd = none →
      ProcessClientRequest ctrl req req_size = (ZX_ERR_INVALID_ARGS, [])) := by
  refine ⟨?_, ?_, ?_⟩
  · intro h
    simp [ProcessClientRequest, h]
  · intro h esz hesz hne
    have hnlt : ¬ req_size < SIZEOF_IHDA_CMD_HDR := Nat.not_lt.mpr h
    by_cases h1 : req.cmd = IHDA_CMD_GET_IDS
    · unfold expectedReqSize at hesz
      rw [if_pos h1] at hesz
      injection hesz with hesz
      subst hesz
      simp [ProcessClientRequest, hnlt, h1, hne]
    · by_cases h2 : req.cmd = IHDA_CONTROLLER_CMD_SNAPSHOT_REGS
      · unfold expectedReqSize at hesz
        rw [if_neg h1, if_pos h2] at hesz
        injection hesz with hesz
        subst hesz
        simp [ProcessClientRequest, hnlt, h1, h2, hne,
          IHDA_CMD_GET_IDS, IHDA_CONTROLLER_CMD_SNAPSHOT_REGS]
      · unfold expectedReqSize at hesz
        rw [if_neg h1, if_neg h2] at hesz
        exact absurd hesz (by simp)
  · intro h hesz
    have hnlt : ¬ req_size < SIZEOF_IHDA_CMD_HDR := Nat.not_lt.mpr h
    by_cases h1 : req.cmd = IHDA_CMD_GET_IDS
    · unfold expectedReqSize at hesz
      rw [if_pos h1] at hesz
      exact absurd hesz (by simp)
    · by_cases h2 : req.cmd = IHDA_CONTROLLER_CMD_SNAPSHOT_REGS
      · unfold expectedReqSize at hesz
        rw [if_neg h1, if_pos h2] at hesz
        exact absurd hesz (by simp)
      · simp [ProcessClientRequest, hnlt, h1, h2]

/-- Witness for C5: a 2-byte read is shorter than the header and is rejected
with no reply. -/
theorem processClientRequest_rejects_malformed_witness :
    ProcessClientRequest exCtrlIds exGetIdsHdr 2 = (ZX_ERR_INVALID_ARGS, []) :=
  (processClientRequest_rejects_malformed exCtrlIds exGetIdsHdr 2).1 (by decide)

/-- C6: a correctly sized `GET_IDS` request produces exactly one reply on the
channel, whose header equals the request header and whose vendor, device and
version fields are the controller's identification values at call time, with
`rev_id` and `step_id` zero. -/
theorem get_ids_reply_echoes_header_and_ids (ctrl : CtrlIds) (req : IhdaCmdHdr)
    (h : req.cmd = IHDA_CMD_GET_IDS) :
    ProcessClientRequest ctrl req SIZEOF_GET_IDS_REQ =
      (ZX_OK,
       [ClientReply.getIds
          { hdr := req, vid := ctrl.vendor_id, did := ctrl.device_id,
            ihda_vmaj := ctrl.vmaj, ihda_vmin := ctrl.vmin,
            rev_id := 0, step_id := 0 }]) := by
  simp [ProcessClientRequest, h, SIZEOF_GET_IDS_REQ, SIZEOF_IHDA_CMD_HDR]

/-- Witness for C6 at concrete identification values. -/
theorem get_ids_reply_echoes_header_and_ids_witness :
    ProcessClientRequest exCtrlIds exGetIdsHdr SIZEOF_GET_IDS_REQ =
      (ZX_OK,
       [ClientReply.getIds
          { hdr := exGetIdsHdr, vid := 32902, did := 10272,
            ihda_vmaj := 1, ihda_vmin := 0, rev_id := 0, step_id := 0 }]) :=
  get_ids_reply_echoes_header_and_ids exCtrlIds exGetIdsHdr rfl

/-- C7: the destructor's assertion holds exactly in the STARTING and
SHUT_DOWN states — in particular it holds in the state the constructor
installs, so a never-bound controller destructs cleanly — and it fails in
every other state. -/
theorem destructor_assert_iff_starting_or_shut_down :
    destructorStateAssert ctorState = true ∧
    (∀ s : State, destructorStateAssert s = true ↔
      (s = State.STARTING ∨ s = State.SHUT_DOWN)) := by
  refine ⟨rfl, ?_⟩
  intro s
  cases s <;> decide

/-- C8: `DeviceShutdown` deactivates the client channels strictly before the
IRQ thread is signalled and joined; when the IRQ thread was started the
post-join state is SHUT_DOWN; and no lifecycle transition leaves SHUT_DOWN. -/
theorem deviceShutdown_order_and_terminal (c : LifecycleState) :
    (DeviceShutdown c).2.head? = some ShutdownEvent.deactivateChannels ∧
    (DeviceShutdown c).1.channels_active = false ∧
    (c.irq_thread_started = true →
      (DeviceShutdown c).2 =
        [ShutdownEvent.deactivateChannels, ShutdownEvent.setStateEv State.SHUTTING_DOWN,
         ShutdownEvent.wakeIRQThread, ShutdownEvent.joinIRQThread] ∧
      (DeviceShutdown c).1.state = State.SHUT_DOWN) ∧
    (∀ s, stateStep State.SHUT_DOWN s = false) := by
  refine ⟨?_, ?_, ?_, ?_⟩
  · cases h : c.irq_thread_started <;> simp [DeviceShutdown, ShutdownIRQThread, h]
  · cases h : c.irq_thread_started <;> simp [DeviceShutdown, ShutdownIRQThread, h]
  · intro h
    constructor <;> simp [DeviceShutdown, ShutdownIRQThread, h, irqThreadFinalState]
  · intro s
    cases s <;> rfl

/-- Witness for C8: shutdown of an operating controller with a started IRQ
thread. -/
theorem deviceShutdown_order_and_terminal_witness :
    (DeviceShutdown exOperating).2 =
      [ShutdownEvent.deactivateChannels, ShutdownEvent.setStateEv State.SHUTTING_DOWN,
       ShutdownEvent.wakeIRQThread, ShutdownEvent.joinIRQThread] ∧
    (DeviceShutdown exOperating).1.state = State.SHUT_DOWN :=
  (deviceShutdown_order_and_terminal exOperating).2.2.1 rfl

/-- C9: whenever `AllocateStream` returns no stream, the pool state — all
three free lists and both tag bitmaps — is exactly as before the call; in
particular tag exhaustion does not pop the candidate context, because the
tag is allocated before the context is removed from its free list. -/
theorem allocateStream_failure_preserves_pool (t : StreamType) (st : PoolState)
    (h : (AllocateStream t st).1 = none) : (AllocateStream t st).2 = st := by
  cases t with
  | INPUT => exact allocateStreamDir_failure StreamType.INPUT st h
  | OUTPUT => exact allocateStreamDir_failure StreamType.OUTPUT st h
  | INVALID => rfl
  | BIDIR => rfl

/-- Witness for C9: tag exhaustion (mask with only bit 0 set) fails the call
and leaves the available bidirectional context in its free list. -/
theorem allocateStream_failure_preserves_pool_witness :
    (AllocateStream StreamType.INPUT exTagExhaustedPool).1 = none ∧
    (AllocateStream StreamType.INPUT exTagExhaustedPool).2 = exTagExhaustedPool :=
  ⟨by decide,
   allocateStream_failure_preserves_pool StreamType.INPUT exTagExhaustedPool (by decide)⟩

/-- C10: `DriverBind` with a null cookie pointer returns
`ZX_ERR_INVALID_ARGS` without constructing a controller or writing the
cookie; otherwise it returns the `Init` status unchanged and writes the
leaked controller reference into the cookie exactly when `Init` succeeded. -/
theorem driverBind_cookie_and_init_status (init_status : Int) :
    DriverBind true init_status = (ZX_ERR_INVALID_ARGS, false, false) ∧
    (DriverBind false init_status).1 = init_status ∧
    (DriverBind false init_status).2.1 = true ∧
    ((DriverBind false init_status).2.2 = true ↔ init_status = ZX_OK) := by
  refine ⟨rfl, rfl, rfl, ?_⟩
  simp [DriverBind]

end IntelHDA
